import Mathlib

/-!
Verification of the sensor-fusion core of `kc_plus` (nebula/nebula.py,
config.py) against its specification.  The Python source is shallowly
embedded: numpy arrays become `List ℚ` (a 1×N buffer is the list of its
columns, each column of the single EDA channel a scalar), the min-max
`scaler`, `scipy.signal.detrend` (linear least-squares detrend) and the
buffer append/delete pattern become pure functions, and the mutable
`hivemind` store becomes an explicit state record.
-/

namespace KCPlus

/-- `np.clip(x, 0, 1)` / `ndarray.clip(0, 1)` on one component. -/
def clip01 (x : ℚ) : ℚ := max 0 (min 1 x)

/-- True when some channel has `maxs - mins = 0`: in the Python source the
vectorised division `(in_feature - mins) / (maxs - mins)` then emits a
`RuntimeWarning`, which `warnings.filterwarnings('error')` turns into an
exception caught by the `except RuntimeWarning` branch. -/
def zeroRange (mins maxs : List ℚ) : Bool :=
  (List.zipWith (fun m M => M - m) mins maxs).any (fun r => r == 0)

/-- Embedding of `scaler(in_feature, mins, maxs)` (nebula.py lines 29-44):
componentwise `(in_feature - mins) / (maxs - mins)`; on a zero-division
warning the whole vector falls back to `in_feature`; in either case the
result is then clipped to `[0, 1]` by the unconditional
`norm_feature = norm_feature.clip(0, 1)` after the `try`/`except`. -/
def scaler (in_feature mins maxs : List ℚ) : List ℚ :=
  let norm :=
    if zeroRange mins maxs then in_feature
    else List.zipWith (fun x p => (x - p.1) / (p.2 - p.1)) in_feature
      (mins.zip maxs)
  norm.map clip01

/-- Embedding of `scipy.signal.detrend` (type `'linear'`) on one channel:
subtract the least-squares linear fit over sample indices `0, …, n-1`.
Over `ℚ` the normal equations are solved exactly.  For `n ≤ 1` the fit is
exact and the residual is zero. -/
def detrend (ys : List ℚ) : List ℚ :=
  let n := ys.length
  if n ≤ 1 then ys.map (fun _ => 0)
  else
    let xs : List ℚ := (List.range n).map (fun i => (i : ℚ))
    let sx := xs.sum
    let sy := ys.sum
    let sxx := (xs.map (fun x => x * x)).sum
    let sxy := ((xs.zip ys).map (fun p => p.1 * p.2)).sum
    let den := (n : ℚ) * sxx - sx * sx
    let b := ((n : ℚ) * sxy - sx * sy) / den
    let a := (sy - b * sx) / (n : ℚ)
    ((xs.zip ys).map (fun p => p.2 - (a + b * p.1)))

/-- `np.min` along the window axis of one channel (0 on an empty list,
which never arises: buffers are constructed non-empty). -/
def listMin : List ℚ → ℚ
  | [] => 0
  | x :: xs => xs.foldl min x

/-- `np.max` along the window axis of one channel. -/
def listMax : List ℚ → ℚ
  | [] => 0
  | x :: xs => xs.foldl max x

/-- The rolling-buffer update used throughout `dancer_input`:
`np.append(buf, col, axis=1)` followed by `np.delete(buf, 0, axis=1)` —
push the new column on the right, drop the oldest column on the left. -/
def bufAppend {α : Type} (buf : List α) (x : α) : List α :=
  (buf ++ [x]).drop 1

/-- Iterated rolling-buffer update over a sequence of arriving columns. -/
def bufAppendAll {α : Type} (buf : List α) (xs : List α) : List α :=
  xs.foldl bufAppend buf

/-- Lower margin applied before scaling (nebula.py line 165):
`eda_mins = eda_mins - 0.05 * (eda_maxs - eda_mins)` where min and max are
taken over the detrended raw buffer (lines 163-164). -/
def edaMinAdj (buf : List ℚ) : ℚ :=
  let d := detrend buf
  listMin d - (5 / 100) * (listMax d - listMin d)

/-- Per-channel maximum over the detrended raw buffer (nebula.py line 164). -/
def edaMax (buf : List ℚ) : ℚ :=
  listMax (detrend buf)

/-- One EDA normalisation tick (nebula.py lines 159-168): detrend the raw
buffer, take min/max, lower the min by 5% of the range, and scale the most
recent detrended column with `scaler`. -/
def edaNormTick (buf : List ℚ) : ℚ :=
  (scaler [(detrend buf).getLastD 0] [edaMinAdj buf] [edaMax buf]).headD 0

/-- Configured duration of the piece in seconds (config.py line 8,
`duration_of_piece = 240`); the spec says the deadline is computed from it,
but `Nebula.__init__` never reads it. -/
def duration_of_piece : ℚ := 240

/-- X extents for the dancer position (config.py line 26). -/
def dancer_x_extents : List ℚ := [0, 1000]

/-- Y extents for the dancer position (config.py line 27). -/
def dancer_y_extents : List ℚ := [0, 1000]

/-- Z extents for the dancer position (config.py line 28). -/
def dancer_z_extents : List ℚ := [0, 1000]

/-- The `hivemind` shared store, restricted to the fields `dancer_input`
and `terminate` touch.  The 1×N EDA buffers are lists of columns of the
single channel; the 2×N x-y history is a list of (x, y) columns. -/
structure Hivemind where
  running : Bool
  eda_buffer_raw : List ℚ
  eda_buffer : List ℚ
  current_dancer_x_y_z : ℚ × ℚ × ℚ
  current_dancer_x_y : List (ℚ × ℚ)
  current_dancer_rnd : ℚ

/-- The state `Nebula.terminate` acts on: the shared store, the
`BITALINO_CONNECTED` flag, and a count of `self.eda.close()` calls issued
so far (the effect trace of the adapter connection). -/
structure NebulaState where
  hivemind : Hivemind
  bitalinoConnected : Bool
  edaCloseCount : Nat

/-- Embedding of `Nebula.terminate` (nebula.py lines 215-220): when an
adapter is configured it calls `self.eda.close()` — recorded as one more
close effect — and does nothing else; the hivemind, in particular
`running`, is untouched. -/
def terminate (s : NebulaState) : NebulaState :=
  if s.bitalinoConnected then { s with edaCloseCount := s.edaCloseCount + 1 }
  else s

/-- One top-of-iteration step of the `dancer_input` loop (nebula.py lines
138-140 with the loop exit at line 213): `while self.hivemind.running`
exits when `running` is false; otherwise `if time() >= self.endtime: break`
exits on the deadline; on either exit line 213 sets `running = False`.
Otherwise the body runs and the loop continues.  Returns the new store and
whether the loop exited. -/
def dancerIteration (body : Hivemind → Hivemind) (h : Hivemind)
    (now endtime : ℚ) : Hivemind × Bool :=
  if !h.running then ({ h with running := false }, true)
  else if endtime ≤ now then ({ h with running := false }, true)
  else (body h, false)

/-- Embedding of the synthetic (no-BITalino) branch of `dancer_input`
(nebula.py lines 199-209), with the random draws passed explicitly:
`eda_buffer` is wholesale replaced by `np.random.uniform(size=(1, 50))`
(the drawn row `randBuf`), and the first two components of the drawn
`rnd_xyz` triple are pushed into the x-y history buffer.  No other field
is written: the raw buffer, `current_dancer_x_y_z` and
`current_dancer_rnd` are untouched. -/
def syntheticStep (h : Hivemind) (randBuf : List ℚ) (r : ℚ × ℚ × ℚ) :
    Hivemind :=
  { h with
    eda_buffer := randBuf
    current_dancer_x_y := bufAppend h.current_dancer_x_y (r.1, r.2.1) }

/-- Python index normalisation for slices: a negative index counts from
the end (clamped at 0), a non-negative one is clamped at the length. -/
def pyIdx (n : Nat) (i : Int) : Nat :=
  if i < 0 then ((n : Int) + i).toNat else min n i.toNat

/-- Python slice `l[a:b]` with step 1 and possibly negative bounds. -/
def pySlice {α : Type} (l : List α) (a b : Int) : List α :=
  let n := l.length
  (l.drop (pyIdx n a)).take (pyIdx n b - pyIdx n a)

/-- Per-axis re-normalisation against configured extents (the
`((raw - ext[0]) / (ext[1] - ext[0])) * (1 - 0) + 0` pattern of nebula.py
lines 183-185), broadcast numpy-style over an array operand. -/
def normAxis (extents : List ℚ) (vs : List ℚ) : List ℚ :=
  vs.map (fun v =>
    ((v - extents.getD 0 0) / (extents.getD 1 0 - extents.getD 0 0))
      * (1 - 0) + 0)

/-- Embedding of the XYZ branch of `dancer_input` (nebula.py lines
182-196).  Line 182 builds `dancer_xyz_raw = [row[-1:-4]]`: a one-element
Python list whose sole element is the slice `row[-1:-4]`.  Lines 183-185
then index `dancer_xyz_raw[0]`, `[1]`, `[2]`; an out-of-range list index
raises `IndexError`, modelled by `none`. -/
def dancerXyzStep (row : List ℚ) : Option (List ℚ × List ℚ × List ℚ) :=
  let dancer_xyz_raw : List (List ℚ) := [pySlice row (-1) (-4)]
  match dancer_xyz_raw.get? 0 with
  | none => none
  | some vx =>
    let norm_x := normAxis dancer_x_extents vx
    match dancer_xyz_raw.get? 1 with
    | none => none
    | some vy =>
      let norm_y := normAxis dancer_y_extents vy
      match dancer_xyz_raw.get? 2 with
      | none => none
      | some vz => some (norm_x, norm_y, normAxis dancer_z_extents vz)

/-- Value of `self.endtime` when `Nebula.__init__` returns (nebula.py line
117, `self.endtime = None`): it is the last assignment of the constructor
and nothing in the module assigns it again. -/
def nebulaInitEndtime : Option ℚ := none

/-- The deadline comparison `time() >= self.endtime` (nebula.py line 139)
under Python 3 semantics: comparing a float with `None` raises
`TypeError`, modelled by `none`. -/
def deadlineCheck (now : ℚ) (endtime : Option ℚ) : Option Bool :=
  match endtime with
  | some t => some (decide (t ≤ now))
  | none => none

/-- A concrete shared store used by witnesses and counterexamples below. -/
def hive0 : Hivemind :=
  { running := true
    eda_buffer_raw := [1, 2]
    eda_buffer := [9]
    current_dancer_x_y_z := (1, 2, 3)
    current_dancer_x_y := [(0, 0)]
    current_dancer_rnd := 7 }

/-- A concrete engine state with a connected adapter. -/
def state0 : NebulaState :=
  { hivemind := hive0, bitalinoConnected := true, edaCloseCount := 0 }

/-! ### Helper lemmas -/

lemma clip01_nonneg (x : ℚ) : 0 ≤ clip01 x := le_max_left 0 _

lemma clip01_le_one (x : ℚ) : clip01 x ≤ 1 :=
  max_le (by norm_num) (min_le_left 1 x)

lemma foldl_min_le_init (xs : List ℚ) : ∀ a : ℚ, xs.foldl min a ≤ a := by
  induction xs with
  | nil => intro a; exact le_refl a
  | cons y ys ih =>
      intro a
      exact le_trans (ih (min a y)) (min_le_left a y)

lemma le_foldl_max_init (xs : List ℚ) : ∀ a : ℚ, a ≤ xs.foldl max a := by
  induction xs with
  | nil => intro a; exact le_refl a
  | cons y ys ih =>
      intro a
      exact le_trans (le_max_left a y) (ih (max a y))

lemma listMin_le_listMax (l : List ℚ) : listMin l ≤ listMax l := by
  cases l with
  | nil => exact le_refl 0
  | cons x xs =>
      exact le_trans (foldl_min_le_init xs x) (le_foldl_max_init xs x)

lemma bufAppendAll_eq_drop {α : Type} (xs buf : List α) :
    bufAppendAll buf xs = (buf ++ xs).drop xs.length := by
  induction xs generalizing buf with
  | nil => simp [bufAppendAll]
  | cons x xs ih =>
      have h1 : bufAppendAll buf (x :: xs) = bufAppendAll (bufAppend buf x) xs :=
        rfl
      rw [h1, ih, bufAppend,
        ← List.drop_append_of_le_length (by simp : 1 ≤ (buf ++ [x]).length),
        List.drop_drop]
      simp [Nat.add_comm]

/-- `scaler` on a single channel, as a case split on the range. -/
lemma scaler_singleton (x m M : ℚ) :
    scaler [x] [m] [M] =
      if M - m = 0 then [clip01 x] else [clip01 ((x - m) / (M - m))] := by
  by_cases h : M - m = 0 <;> simp [scaler, zeroRange, h]

/-- The slice `row[-1:-4]` with step 1 is always empty in Python. -/
lemma pySlice_neg_one_neg_four {α : Type} (row : List α) :
    pySlice row (-1) (-4) = [] := by
  have hle : pyIdx row.length (-4) ≤ pyIdx row.length (-1) := by
    unfold pyIdx
    rw [if_pos (by norm_num : (-4 : Int) < 0), if_pos (by norm_num : (-1 : Int) < 0)]
    exact Int.toNat_le_toNat (by omega)
  simp [pySlice, Nat.sub_eq_zero_of_le hle]

/-! ### Claim theorems -/

/-- Claim C5: for a rolling buffer of fixed width `W > 0`, every append
evicts exactly the oldest column and preserves width and oldest-to-newest
order, and after `k ≥ W` appends the buffer holds exactly the last `W`
appended values in arrival order. -/
theorem rollingBuffer_append_spec (W : ℕ) (buf xs : List ℚ)
    (hW : 0 < W) (hbuf : buf.length = W) :
    (∀ x : ℚ, (bufAppend buf x).length = W ∧
      bufAppend buf x = buf.drop 1 ++ [x]) ∧
    (W ≤ xs.length →
      bufAppendAll buf xs = xs.drop (xs.length - W) ∧
      (bufAppendAll buf xs).length = W) := by
  constructor
  · intro x
    constructor
    · simp [bufAppend, hbuf]
    · rw [bufAppend,
        List.drop_append_of_le_length (by omega : 1 ≤ buf.length)]
  · intro hk
    have hsplit : xs.length = buf.length + (xs.length - W) := by omega
    constructor
    · rw [bufAppendAll_eq_drop]
      nth_rewrite 1 [hsplit]
      rw [List.drop_append]
    · rw [bufAppendAll_eq_drop]
      simp
      omega

/-- Claim C5 witness: width 5, appending `[1,2,3,4,5,6]` to a zero-filled
buffer leaves exactly `[2,3,4,5,6]`. -/
theorem rollingBuffer_append_spec_witness :
    bufAppendAll (List.replicate 5 (0 : ℚ)) [1, 2, 3, 4, 5, 6]
      = [2, 3, 4, 5, 6] := by
  have h := (rollingBuffer_append_spec 5 (List.replicate 5 (0 : ℚ))
    [1, 2, 3, 4, 5, 6] (by norm_num) (by simp)).2 (by norm_num)
  exact h.1.trans rfl

/-- Claim C10: on every input vector and every mins/maxs pair, every
component returned by `scaler` lies in `[0, 1]` — the final
`clip(0, 1)` applies on the degenerate passthrough path as well. -/
theorem scaler_always_bounded (in_feature mins maxs : List ℚ) (y : ℚ)
    (hy : y ∈ scaler in_feature mins maxs) : 0 ≤ y ∧ y ≤ 1 := by
  simp only [scaler, List.mem_map] at hy
  obtain ⟨x, -, rfl⟩ := hy
  exact ⟨clip01_nonneg x, clip01_le_one x⟩

/-- Claim C10 witness: the component `1` of `scaler [5] [0] [2]` is
bounded by `[0, 1]`. -/
theorem scaler_always_bounded_witness : 0 ≤ (1 : ℚ) ∧ (1 : ℚ) ≤ 1 :=
  scaler_always_bounded [5] [0] [2] 1
    (by norm_num [scaler, zeroRange, clip01])

/-- Claim C1 counterexample: the degenerate zero-range path does not
return the value unclipped — `scaler [3] [0] [0] = [1]`, not `[3]` — and
the constant-3-over-5-samples scenario yields `0` (the detrended last
sample, clipped), not `3`. -/
theorem scaler_passthrough_counterexample :
    edaNormTick (List.replicate 5 (3 : ℚ)) = 0 ∧
    scaler [(3 : ℚ)] [0] [0] = [1] ∧
    (0 : ℚ) ≠ 3 ∧ (1 : ℚ) ≠ 3 := by
  refine ⟨?_, ?_, by norm_num, by norm_num⟩
  · have hd : detrend (List.replicate 5 (3 : ℚ)) = List.replicate 5 0 := by
      norm_num [detrend, List.replicate, List.range_succ,
        List.zip_cons_cons, List.sum_cons]
    rw [edaNormTick, edaMinAdj, edaMax, hd]
    norm_num [scaler, zeroRange, clip01, listMin, listMax, List.replicate]
  · norm_num [scaler, zeroRange, clip01]

/-- Claim C1 (amended): when some channel of the window has zero range,
`scaler` falls back to the input vector, but the fallback is still
clipped to `[0, 1]` before being returned — it is not NaN and not an
error, yet not unclipped raw passthrough. -/
theorem scaler_zero_range_passthrough_clipped
    (in_feature mins maxs : List ℚ) (h : zeroRange mins maxs = true) :
    scaler in_feature mins maxs = in_feature.map clip01 := by
  simp [scaler, h]

/-- Claim C1 (amended) witness: zero range `[0, 0]` sends input `3` to
`clip01 3 = 1`. -/
theorem scaler_zero_range_passthrough_clipped_witness :
    scaler [(3 : ℚ)] [0] [0] = [1] := by
  have h := scaler_zero_range_passthrough_clipped [(3 : ℚ)] [0] [0]
    (by norm_num [zeroRange])
  rw [h]
  norm_num [clip01]

/-- Claim C6: when the detrended window has non-zero range, the EDA tick
scales the most recent detrended column by the computed (margin-adjusted)
min/max and clips the result, so the output lies in `[0, 1]`. -/
theorem edaNormTick_bounded (buf : List ℚ)
    (h : listMax (detrend buf) - listMin (detrend buf) ≠ 0) :
    edaNormTick buf =
      clip01 (((detrend buf).getLastD 0 - edaMinAdj buf)
        / (edaMax buf - edaMinAdj buf)) ∧
    0 ≤ edaNormTick buf ∧ edaNormTick buf ≤ 1 := by
  have hM : edaMax buf - edaMinAdj buf
      = (21 / 20) * (listMax (detrend buf) - listMin (detrend buf)) := by
    simp only [edaMax, edaMinAdj]
    ring
  have hne : edaMax buf - edaMinAdj buf ≠ 0 := by
    rw [hM]
    exact mul_ne_zero (by norm_num) h
  have heq : edaNormTick buf =
      clip01 (((detrend buf).getLastD 0 - edaMinAdj buf)
        / (edaMax buf - edaMinAdj buf)) := by
    rw [edaNormTick, scaler_singleton, if_neg hne]
    rfl
  exact ⟨heq, heq ▸ clip01_nonneg _, heq ▸ clip01_le_one _⟩

/-- Claim C6 witness: the window `[0,1,0,1,0]` has detrended range 1, and
its normalised tick value is bounded by `[0, 1]`. -/
theorem edaNormTick_bounded_witness :
    0 ≤ edaNormTick [(0 : ℚ), 1, 0, 1, 0] ∧
    edaNormTick [(0 : ℚ), 1, 0, 1, 0] ≤ 1 := by
  have hd : detrend [(0 : ℚ), 1, 0, 1, 0]
      = [-2/5, 3/5, -2/5, 3/5, -2/5] := by
    norm_num [detrend, List.range_succ, List.zip_cons_cons, List.sum_cons]
  have h : listMax (detrend [(0 : ℚ), 1, 0, 1, 0])
      - listMin (detrend [(0 : ℚ), 1, 0, 1, 0]) ≠ 0 := by
    rw [hd]
    norm_num [listMin, listMax, min_def, max_def]
  exact (edaNormTick_bounded [(0 : ℚ), 1, 0, 1, 0] h).2

/-- Claim C7: the per-channel minimum handed to the scaler equals the
detrended window's minimum lowered by exactly 5% of that channel's range,
min and max being taken over the detrended window; in particular it never
exceeds the detrended minimum. -/
theorem edaMins_margin (buf : List ℚ) :
    edaMinAdj buf = listMin (detrend buf)
      - (5 / 100) * (listMax (detrend buf) - listMin (detrend buf)) ∧
    edaMinAdj buf ≤ listMin (detrend buf) := by
  constructor
  · rfl
  · have hmm := listMin_le_listMax (detrend buf)
    have hnn : 0 ≤ (5 / 100 : ℚ)
        * (listMax (detrend buf) - listMin (detrend buf)) :=
      mul_nonneg (by norm_num) (by linarith)
    simp only [edaMinAdj]
    linarith

/-- Claim C2 counterexample: on a state with a connected adapter and the
engine running, `terminate` leaves `running` true, and a second call
issues a second `close()` on the adapter — the connection is not closed
exactly once. -/
theorem terminate_counterexample :
    (terminate state0).hivemind.running = true ∧
    (terminate (terminate state0)).edaCloseCount = 2 :=
  ⟨rfl, rfl⟩

/-- Claim C2 (amended): `terminate` closes the adapter connection once
per call when an adapter is configured and does nothing else — the shared
store (in particular `running`) is unchanged, so no loop is stopped, and
two calls close the connection twice. -/
theorem terminate_behavior (s : NebulaState) :
    (terminate s).hivemind = s.hivemind ∧
    (terminate s).bitalinoConnected = s.bitalinoConnected ∧
    (terminate s).edaCloseCount
      = s.edaCloseCount + (if s.bitalinoConnected then 1 else 0) := by
  rcases Bool.eq_false_or_eq_true s.bitalinoConnected with hb | hb <;>
    simp [terminate, hb]

/-- Claim C3: `Nebula.__init__` leaves `self.endtime = None` — the
deadline is never computed from the configured piece duration, and every
deadline comparison `time() >= self.endtime` performed by the ingestion
loop raises `TypeError` (modelled as `none`) instead of comparing against
an absolute instant. -/
theorem endtime_none_after_init :
    (∀ t : ℚ, nebulaInitEndtime ≠ some t) ∧
    (∀ now : ℚ, deadlineCheck now nebulaInitEndtime = none) :=
  ⟨fun _ h => Option.noConfusion h, fun _ => rfl⟩

/-- Claim C4 (amended): at the top of every iteration the loop checks
`running` and the deadline; when `running` is false or the deadline has
passed, that same iteration exits without executing the body and
`running` is false on exit.  (The dropped clause — that the loop never
runs after `terminate()` returns — fails, see the counterexample.) -/
theorem dancer_loop_exit (body : Hivemind → Hivemind) (h : Hivemind)
    (now endtime : ℚ) (hc : h.running = false ∨ endtime ≤ now) :
    dancerIteration body h now endtime
      = ({ h with running := false }, true) := by
  rcases hc with hr | ht
  · simp [dancerIteration, hr]
  · rcases Bool.eq_false_or_eq_true h.running with hr | hr <;>
      simp [dancerIteration, hr, ht]

/-- Claim C4 witness: with the deadline already passed (`now = 5`,
`endtime = 3`) the running store exits immediately with `running` false. -/
theorem dancer_loop_exit_witness :
    dancerIteration (fun x => x) hive0 5 3
      = ({ hive0 with running := false }, true) :=
  dancer_loop_exit (fun x => x) hive0 5 3 (Or.inr (by norm_num))

/-- Claim C4 counterexample: after `terminate` returns on a running
state, the very next loop check still continues (the body executes), so
the loop does run past `terminate()`'s return. -/
theorem loop_runs_after_terminate_counterexample :
    (dancerIteration (fun x => x) (terminate state0).hivemind 0 100).2
      = false := by
  norm_num [dancerIteration, terminate, state0, hive0]

/-- Claim C8 counterexample: the synthetic branch leaves the raw buffer
untouched (no append), publishes no feature triple and no randomly-chosen
scalar component — `current_dancer_rnd` stays `7`, which is none of the
drawn components `1/4`, `1/5`, `1/6`. -/
theorem synthetic_branch_counterexample :
    (syntheticStep hive0 [1/2, 1/3] (1/4, 1/5, 1/6)).eda_buffer_raw
      = [1, 2] ∧
    (syntheticStep hive0 [1/2, 1/3] (1/4, 1/5, 1/6)).current_dancer_rnd
      = 7 ∧
    (syntheticStep hive0 [1/2, 1/3] (1/4, 1/5, 1/6)).current_dancer_x_y_z
      = (1, 2, 3) ∧
    (7 : ℚ) ≠ 1/4 ∧ (7 : ℚ) ≠ 1/5 ∧ (7 : ℚ) ≠ 1/6 :=
  ⟨rfl, rfl, rfl, by norm_num, by norm_num, by norm_num⟩

/-- Claim C8 (amended): when no adapter is configured, an iteration
overwrites the normalised buffer wholesale with the freshly drawn random
row, pushes the drawn x-y pair into the x-y history buffer, and touches
nothing else: the raw buffer is not appended to, and neither the feature
triple nor a randomly-chosen scalar component is published. -/
theorem synthetic_branch_behavior (h : Hivemind) (randBuf : List ℚ)
    (r : ℚ × ℚ × ℚ) :
    (syntheticStep h randBuf r).running = h.running ∧
    (syntheticStep h randBuf r).eda_buffer_raw = h.eda_buffer_raw ∧
    (syntheticStep h randBuf r).current_dancer_x_y_z
      = h.current_dancer_x_y_z ∧
    (syntheticStep h randBuf r).current_dancer_rnd
      = h.current_dancer_rnd ∧
    (syntheticStep h randBuf r).eda_buffer = randBuf ∧
    (syntheticStep h randBuf r).current_dancer_x_y
      = bufAppend h.current_dancer_x_y (r.1, r.2.1) :=
  ⟨rfl, rfl, rfl, rfl, rfl, rfl⟩

/-- Claim C9: on every hardware-path iteration the XYZ extraction fails —
`dancer_xyz_raw = [row[-1:-4]]` wraps the always-empty slice `row[-1:-4]`
in a one-element list, so the subsequent index `dancer_xyz_raw[1]` raises
`IndexError` and no normalised triple is ever computed or published. -/
theorem dancer_xyz_crashes (row : List ℚ) :
    pySlice row (-1) (-4) = [] ∧ dancerXyzStep row = none :=
  ⟨pySlice_neg_one_neg_four row, rfl⟩

end KCPlus
